/-
Verification of the quant-realtime-analytics repository.

This file gives a shallow embedding, in Lean 4, of the parts of the
repository relevant to its specification:

  * src/alerts.py      — AlertManager: price / volatility alerts, history
  * src/analytics.py   — QuantAnalytics: returns, volatility, moving averages
  * src/data_store.py  — DataStore: bounded FIFO tick buffer

Modelling conventions:

  * Python floats are modelled by exact rationals (ℚ).  All branch
    conditions appearing in the claims were checked to agree with IEEE
    double evaluation at the concrete inputs involved.
  * pandas NaN results (e.g. `Series.std()` with fewer than two data
    points, which uses `ddof=1`) are modelled as `Option.none`; numeric
    results are `Option.some`.
  * `Series.std()` is an exact real number (a square root), so values
    flowing out of it live in ℝ.
  * `datetime.now()` timestamps and formatted human-readable messages
    carry no information the spec's claims depend on; the `timestamp`
    and `message` fields of `Alert` are therefore omitted from the model.
  * `print` inside the callback loop of `AlertManager._trigger_alert`
    is modelled as appending to an explicit log of strings; a Python
    exception escaping a function is modelled by `Except.error`.
-/
import Mathlib

namespace Quant

/-! ### src/alerts.py -/

/-- `AlertLevel` enum from src/alerts.py. -/
inductive AlertLevel where
  | INFO
  | WARNING
  | CRITICAL
deriving DecidableEq

/-- `Alert` from src/alerts.py: severity, triggering value, crossed
threshold and metric name.  (`message` and `timestamp` omitted, see the
header.) -/
structure Alert where
  level : AlertLevel
  value : ℚ
  threshold : ℚ
  metric : String
deriving DecidableEq

/-- The state of an `AlertManager`: the stored history plus the
configuration fields set in `AlertManager.__init__`.  The callback list
is passed separately to `trigger_alert` (it contains functions, which
have no decidable equality). -/
structure AlertState where
  max_alerts : ℕ
  price_change_threshold : ℚ
  volatility_threshold : ℚ
  volatility_critical : ℚ
  alerts : List Alert
deriving DecidableEq

/-- `AlertManager.__init__(max_alerts)`: empty history, default
thresholds 2.0 (percent), 0.02 and 0.05. -/
def AlertManager_init (max_alerts : ℕ) : AlertState :=
  ⟨max_alerts, 2, 1/50, 1/20, []⟩

/-- The manager obtained with the default `max_alerts = 1000`. -/
def defaultManager : AlertState :=
  AlertManager_init 1000

/-- The history update performed by `AlertManager._trigger_alert`:
`self.alerts.append(alert)` followed by `self.alerts.pop(0)` when the
length exceeds `max_alerts`. -/
def evictAppend (m : ℕ) (l : List Alert) (a : Alert) : List Alert :=
  let d := l ++ [a]
  if m < d.length then d.tail else d

/-- The effect of `AlertManager._trigger_alert` on the manager state
(history update only; the callback loop, which does not touch the
state, is `callback_loop` below). -/
def trigger_alert_hist (st : AlertState) (a : Alert) : AlertState :=
  ⟨st.max_alerts, st.price_change_threshold, st.volatility_threshold,
    st.volatility_critical, evictAppend st.max_alerts st.alerts a⟩

/-- The `for callback in self.callbacks: try: callback(alert) except
Exception as e: print(...)` loop of `AlertManager._trigger_alert`.  A
failing callback's error is caught in place, the message `print`ed (here:
appended to the log), and the loop continues with the next callback. -/
def callback_loop (a : Alert) :
    List (Alert → Except String Unit) → List String →
      Except String (List String)
  | [], log => .ok log
  | cb :: rest, log =>
    match cb a with
    | .ok _ => callback_loop a rest log
    | .error e => callback_loop a rest (log ++ ["Error in alert callback: " ++ e])

/-- The messages `print`ed by the callback loop on a given alert: one
line per failing callback, in registration order. -/
def callback_errors (a : Alert) (cbs : List (Alert → Except String Unit)) : List String :=
  cbs.filterMap fun cb =>
    match cb a with
    | .ok _ => none
    | .error e => some ("Error in alert callback: " ++ e)

/-- `AlertManager._trigger_alert` in full: record the alert in the
history (with FIFO eviction), then run every registered callback under
try/except.  The result is `Except` so that a hypothetical escaping
exception would surface as `.error`. -/
def trigger_alert (callbacks : List (Alert → Except String Unit))
    (st : AlertState) (log : List String) (a : Alert) :
    Except String (AlertState × List String) :=
  (callback_loop a callbacks log).map fun log2 => (trigger_alert_hist st a, log2)

/-- `AlertManager.check_price_alert(current_price, previous_price)`.
Returns the updated state together with the Python return value
(`Alert` or `None`). -/
def check_price_alert (st : AlertState) (current_price previous_price : ℚ) :
    AlertState × Option Alert :=
  if previous_price = 0 then (st, none)
  else
    let price_change_pct := (current_price - previous_price) / previous_price * 100
    if st.price_change_threshold < |price_change_pct| then
      let level := if |price_change_pct| < 5 then AlertLevel.WARNING else AlertLevel.CRITICAL
      let a : Alert := ⟨level, price_change_pct, st.price_change_threshold, "price_change"⟩
      (trigger_alert_hist st a, some a)
    else
      (st, none)

/-- `AlertManager.check_volatility_alert(volatility)`. -/
def check_volatility_alert (st : AlertState) (volatility : ℚ) :
    AlertState × Option Alert :=
  if st.volatility_critical < volatility then
    let a : Alert := ⟨AlertLevel.CRITICAL, volatility, st.volatility_critical, "volatility"⟩
    (trigger_alert_hist st a, some a)
  else if st.volatility_threshold < volatility then
    let a : Alert := ⟨AlertLevel.WARNING, volatility, st.volatility_threshold, "volatility"⟩
    (trigger_alert_hist st a, some a)
  else
    (st, none)

/-- Python's `l[i:]` slice for an arbitrary (possibly negative) integer
start index: a negative start counts from the end, clamped at 0; a start
beyond the length yields `[]`. -/
def pySliceFrom (l : List α) (i : ℤ) : List α :=
  if i < 0 then l.drop (l.length + i).toNat else l.drop i.toNat

/-- `AlertManager.get_recent_alerts(n)`:
`self.alerts[-n:] if len(self.alerts) > 0 else []`. -/
def get_recent_alerts (st : AlertState) (n : ℤ) : List Alert :=
  if st.alerts = [] then [] else pySliceFrom st.alerts (-n)

/-- The two alert-generating check operations of the manager. -/
inductive CheckOp where
  | price (current previous : ℚ)
  | vol (v : ℚ)

/-- Run one check operation. -/
def run_check (st : AlertState) : CheckOp → AlertState × Option Alert
  | .price c p => check_price_alert st c p
  | .vol v => check_volatility_alert st v

/-- Run a sequence of check operations. -/
def run_checks (st : AlertState) : List CheckOp → AlertState
  | [] => st
  | op :: rest => run_checks (run_check st op).1 rest

/-- The alerts raised (in order) along a sequence of check operations. -/
def raised_alerts (st : AlertState) : List CheckOp → List Alert
  | [] => []
  | op :: rest =>
    (run_check st op).2.toList ++ raised_alerts (run_check st op).1 rest

/-! ### src/analytics.py -/

/-- `pandas.Series.mean` of a list of rationals (used only on non-empty
lists in the embedded code paths). -/
def listMean (xs : List ℚ) : ℚ :=
  xs.sum / xs.length

/-- `QuantAnalytics.calculate_simple_returns(prices)`:
`prices.pct_change().dropna()`, i.e. the list of
`(p(t) - p(t-1)) / p(t-1)`; empty when fewer than 2 prices. -/
def calculate_simple_returns (prices : List ℚ) : List ℚ :=
  if prices.length < 2 then []
  else List.zipWith (fun prev cur => (cur - prev) / prev) prices prices.tail

/-- The sample variance (pandas' `ddof=1`) of a list of rationals; only
meaningful for lists with at least 2 elements. -/
def sampleVar (xs : List ℚ) : ℚ :=
  ((xs.map fun x => (x - listMean xs) ^ 2).sum) / (xs.length - 1 : ℕ)

/-- `pandas.Series.std()` with the default `ddof=1`: `NaN` (here `none`)
when the series has fewer than 2 entries, otherwise the square root of
the sample variance. -/
noncomputable def pdStd (xs : List ℚ) : Option ℝ :=
  if xs.length ≤ 1 then none else some (Real.sqrt ((sampleVar xs : ℚ) : ℝ))

/-- `QuantAnalytics.calculate_volatility(prices, window)`:
returns 0.0 when `len(prices) < window`; otherwise the std of the full
return series when it is shorter than `window`, else the std of the last
`window` returns (`returns.tail(window).std()`). -/
noncomputable def calculate_volatility (prices : List ℚ) (window : ℕ) : Option ℝ :=
  if prices.length < window then some 0
  else
    let returns := calculate_simple_returns prices
    if returns.length < window then pdStd returns
    else pdStd (returns.rtake window)

/-- `prices.rolling(window=window, min_periods=1).mean()`: one output
per input position, the mean of the trailing window of size up to
`window` ending there. -/
def rollingMean (window : ℕ) (prices : List ℚ) : List ℚ :=
  (List.range prices.length).map fun i => listMean ((prices.take (i + 1)).rtake window)

/-- `QuantAnalytics.calculate_moving_average(prices, window)`: empty
when `len(prices) < window`, otherwise the rolling mean with
`min_periods=1`. -/
def calculate_moving_average (prices : List ℚ) (window : ℕ) : List ℚ :=
  if prices.length < window then [] else rollingMean window prices

/-- `prices.ewm(span=span, adjust=False).mean()`:
`e(0) = p(0)`, `e(t) = (1-a) e(t-1) + a p(t)` with `a = 2/(span+1)`. -/
def ewmMean (span : ℕ) : List ℚ → List ℚ
  | [] => []
  | p :: rest =>
    List.scanl (fun e x => (1 - 2 / ((span : ℚ) + 1)) * e + 2 / ((span : ℚ) + 1) * x) p rest

/-- `QuantAnalytics.calculate_ema(prices, window)`: empty when
`len(prices) < window`, otherwise the exponentially weighted mean with
`span = window, adjust=False`. -/
def calculate_ema (prices : List ℚ) (window : ℕ) : List ℚ :=
  if prices.length < window then [] else ewmMean window prices

/-- Python's `round` to an integer: round half to even. -/
def pyRoundInt {α : Type} [LinearOrderedField α] [FloorRing α] (x : α) : ℤ :=
  if Int.fract x < 1/2 then ⌊x⌋
  else if 1/2 < Int.fract x then ⌊x⌋ + 1
  else if ⌊x⌋ % 2 = 0 then ⌊x⌋ else ⌊x⌋ + 1

/-- Python's `round(x, d)` (on the exact value; float representation
artefacts are not modelled). -/
def pyRound {α : Type} [LinearOrderedField α] [FloorRing α] (d : ℕ) (x : α) : α :=
  (pyRoundInt (x * 10 ^ d) : ℤ) / 10 ^ d

/-- The snapshot dictionary returned by
`QuantAnalytics.calculate_metrics`.  Fields that the code can set to
`None` are `Option`s. -/
structure Metrics where
  current_price : ℚ
  price_change_pct : ℚ
  volatility : Option ℝ
  ma_short : Option ℚ
  ma_long : Option ℚ
  ema_short : Option ℚ
  num_records : ℕ
  mean_return : ℚ

/-- `round(v, 2) if v else None` applied to an optional latest
moving-average value: both `None` and a value of `0.0` (falsy) give
`None`. -/
def pyOptRound2 (o : Option ℚ) : Option ℚ :=
  match o with
  | none => none
  | some v => if v = 0 then none else some (pyRound 2 v)

/-- `QuantAnalytics.calculate_metrics(df, window_short, window_long)`,
with the DataFrame's `price` column given as the list of prices.  An
empty frame gives the empty dictionary (`none`).  The `log_returns`
series computed by the source is dead code (it does not flow into the
returned dictionary) and is omitted. -/
noncomputable def calculate_metrics (prices : List ℚ)
    (window_short window_long : ℕ) : Option Metrics :=
  if prices.length = 0 then none
  else
    let simple_returns := calculate_simple_returns prices
    let volatility := calculate_volatility prices 20
    let ma_short := calculate_moving_average prices window_short
    let ma_long := calculate_moving_average prices window_long
    let ema_short := calculate_ema prices window_short
    let current_price := prices.getLast?.getD 0
    let price_change :=
      match simple_returns.getLast? with
      | some r => r * 100
      | none => 0
    some ⟨pyRound 2 current_price,
          pyRound 4 price_change,
          volatility.map (pyRound 6),
          pyOptRound2 ma_short.getLast?,
          pyOptRound2 ma_long.getLast?,
          pyOptRound2 ema_short.getLast?,
          prices.length,
          if simple_returns.length = 0 then 0
          else pyRound 4 (listMean simple_returns * 100)⟩

/-! ### src/data_store.py -/

/-- The state of a `DataStore`: the capacity passed to `__init__` and
the contents of the `deque(maxlen=max_records)`.  Ticks are opaque
(the store never inspects them in the claims' code paths), hence the
type parameter.  The `self.df` DataFrame is rebuilt from
`list(self.data)` on every insertion, so `get_all` is determined by
`data`. -/
structure DataStore (α : Type) where
  max_records : ℕ
  data : List α

/-- `DataStore.__init__(max_records)`. -/
def DataStore_init (α : Type) (max_records : ℕ) : DataStore α :=
  ⟨max_records, []⟩

/-- `DataStore.add_tick(tick_data)`: `deque.append` on a deque with
`maxlen = max_records` — the new element is appended and, if the deque
was full, the oldest element is discarded.  (For every reachable state,
`len(data) ≤ max_records`, so at most one element is dropped; the
`drop` formulation below agrees with CPython's deque on all such
states, including `maxlen = 0`.) -/
def add_tick (st : DataStore α) (t : α) : DataStore α :=
  let d := st.data ++ [t]
  ⟨st.max_records, d.drop (d.length - st.max_records)⟩

/-- `DataStore.get_all()` as a list of ticks: the DataFrame rows, which
mirror the deque contents in order. -/
def get_all (st : DataStore α) : List α :=
  st.data

/-- Add a list of ticks in order. -/
def add_ticks (st : DataStore α) (ts : List α) : DataStore α :=
  ts.foldl add_tick st

/-- The mutating operations of a `DataStore`. -/
inductive StoreOp (α : Type) where
  | add (t : α)
  | clear

/-- Run one store operation (`add_tick` or `clear`). -/
def run_store_op (st : DataStore α) : StoreOp α → DataStore α
  | .add t => add_tick st t
  | .clear => ⟨st.max_records, []⟩

/-- Run a sequence of store operations. -/
def run_store_ops (st : DataStore α) : List (StoreOp α) → DataStore α
  | [] => st
  | op :: rest => run_store_ops (run_store_op st op) rest

/-! ### Helper lemmas -/

lemma length_rtake (l : List α) (m : ℕ) : (l.rtake m).length = min m l.length := by
  simp only [List.rtake, List.length_drop]
  omega

lemma rtake_of_length_le {l : List α} {m : ℕ} (h : l.length ≤ m) : l.rtake m = l := by
  simp [List.rtake, Nat.sub_eq_zero_of_le h]

lemma rtake_append_rtake (m : ℕ) (l r : List α) :
    (l.rtake m ++ r).rtake m = (l ++ r).rtake m := by
  simp only [List.rtake_eq_reverse_take_reverse, List.reverse_append, List.reverse_reverse]
  simp only [List.take_append_eq_append_take]
  rw [List.take_take, Nat.min_eq_left (Nat.sub_le _ _)]

lemma evictAppend_eq_rtake {m : ℕ} {l : List Alert} (a : Alert) (h : l.length ≤ m) :
    evictAppend m l a = (l ++ [a]).rtake m := by
  simp only [evictAppend, List.rtake, List.length_append, List.length_singleton]
  by_cases hc : m < l.length + 1
  · have hm : m = l.length := by omega
    simp [hc, hm, List.drop_one]
  · have h0 : l.length + 1 - m = 0 := by omega
    simp [hc, h0]

lemma evictAppend_length_le (m : ℕ) (l : List Alert) (a : Alert) :
    (evictAppend m l a).length ≤ l.length + 1 := by
  simp only [evictAppend]
  split
  · simp
  · simp

/-- `add_tick` keeps exactly the last `max_records` elements. -/
lemma add_tick_data (st : DataStore α) (t : α) :
    (add_tick st t).data = (st.data ++ [t]).rtake st.max_records := rfl

lemma add_ticks_spec (ts : List α) :
    ∀ st : DataStore α, st.data.length ≤ st.max_records →
      (add_ticks st ts).data = (st.data ++ ts).rtake st.max_records ∧
      (add_ticks st ts).max_records = st.max_records := by
  induction ts with
  | nil =>
    intro st h
    refine ⟨?_, rfl⟩
    simp only [add_ticks, List.foldl_nil, List.append_nil]
    rw [rtake_of_length_le h]
  | cons t ts ih =>
    intro st h
    have hmax : (add_tick st t).max_records = st.max_records := rfl
    have hlen : (add_tick st t).data.length ≤ (add_tick st t).max_records := by
      rw [add_tick_data, length_rtake, hmax]
      exact min_le_left _ _
    obtain ⟨h1, h2⟩ := ih (add_tick st t) hlen
    rw [hmax] at h1 h2
    refine ⟨?_, h2⟩
    rw [show add_ticks st (t :: ts) = add_ticks (add_tick st t) ts from rfl, h1,
      add_tick_data, rtake_append_rtake]
    simp

lemma run_store_ops_spec (ops : List (StoreOp α)) :
    ∀ st : DataStore α, st.data.length ≤ st.max_records →
      (run_store_ops st ops).data.length ≤ st.max_records ∧
      (run_store_ops st ops).max_records = st.max_records := by
  induction ops with
  | nil => intro st h; exact ⟨h, rfl⟩
  | cons op ops ih =>
    intro st h
    have hst : (run_store_op st op).data.length ≤ (run_store_op st op).max_records ∧
        (run_store_op st op).max_records = st.max_records := by
      cases op with
      | add t =>
        refine ⟨?_, rfl⟩
        rw [show run_store_op st (.add t) = add_tick st t from rfl, add_tick_data, length_rtake]
        exact min_le_left _ _
      | clear => exact ⟨Nat.zero_le _, rfl⟩
    obtain ⟨h1, h2⟩ := ih (run_store_op st op) hst.1
    exact ⟨hst.2 ▸ h1, hst.2 ▸ h2⟩

/-- Each check operation either leaves the manager unchanged and returns
`None`, or records one alert via `_trigger_alert` and returns it. -/
lemma run_check_cases (st : AlertState) (op : CheckOp) :
    run_check st op = (st, none) ∨
      ∃ a, run_check st op = (trigger_alert_hist st a, some a) := by
  cases op with
  | price c p =>
    simp only [run_check, check_price_alert]
    by_cases h0 : p = 0
    · simp [h0]
    · rw [if_neg h0]
      split
      · exact Or.inr ⟨_, rfl⟩
      · exact Or.inl rfl
  | vol v =>
    simp only [run_check, check_volatility_alert]
    split
    · exact Or.inr ⟨_, rfl⟩
    · split
      · exact Or.inr ⟨_, rfl⟩
      · exact Or.inl rfl

lemma trigger_alert_hist_alerts (st : AlertState) (a : Alert) :
    (trigger_alert_hist st a).alerts = evictAppend st.max_alerts st.alerts a := rfl

lemma run_checks_spec (ops : List CheckOp) :
    ∀ st : AlertState, st.alerts.length ≤ st.max_alerts →
      (run_checks st ops).alerts =
        (st.alerts ++ raised_alerts st ops).rtake st.max_alerts ∧
      (run_checks st ops).max_alerts = st.max_alerts := by
  induction ops with
  | nil =>
    intro st h
    refine ⟨?_, rfl⟩
    simp only [run_checks, raised_alerts, List.append_nil]
    rw [rtake_of_length_le h]
  | cons op ops ih =>
    intro st h
    rcases run_check_cases st op with hc | ⟨a, hc⟩
    · have e1 : run_checks st (op :: ops) = run_checks st ops := by
        rw [show run_checks st (op :: ops) = run_checks (run_check st op).1 ops from rfl, hc]
      have e2 : raised_alerts st (op :: ops) = raised_alerts st ops := by
        rw [show raised_alerts st (op :: ops) =
          (run_check st op).2.toList ++ raised_alerts (run_check st op).1 ops from rfl, hc]
        simp
      rw [e1, e2]
      exact ih st h
    · have hmax : (trigger_alert_hist st a).max_alerts = st.max_alerts := rfl
      have hinv : (trigger_alert_hist st a).alerts.length ≤
          (trigger_alert_hist st a).max_alerts := by
        rw [trigger_alert_hist_alerts, evictAppend_eq_rtake a h, length_rtake, hmax]
        exact min_le_left _ _
      obtain ⟨h1, h2⟩ := ih (trigger_alert_hist st a) hinv
      rw [hmax] at h1 h2
      have e1 : run_checks st (op :: ops) = run_checks (trigger_alert_hist st a) ops := by
        rw [show run_checks st (op :: ops) = run_checks (run_check st op).1 ops from rfl, hc]
      have e2 : raised_alerts st (op :: ops) =
          a :: raised_alerts (trigger_alert_hist st a) ops := by
        rw [show raised_alerts st (op :: ops) =
          (run_check st op).2.toList ++ raised_alerts (run_check st op).1 ops from rfl, hc]
        simp
      refine ⟨?_, by rw [e1, h2]⟩
      rw [e1, e2, h1, trigger_alert_hist_alerts, evictAppend_eq_rtake a h,
        rtake_append_rtake]
      simp

/-- The callback loop always terminates normally, appending to the log
exactly one error line per failing callback, in order. -/
lemma callback_loop_ok (a : Alert) (cbs : List (Alert → Except String Unit)) :
    ∀ log, callback_loop a cbs log = .ok (log ++ callback_errors a cbs) := by
  induction cbs with
  | nil => intro log; simp [callback_loop, callback_errors]
  | cons cb rest ih =>
    intro log
    cases hcb : cb a with
    | ok u =>
      simp only [callback_loop, callback_errors, List.filterMap_cons, hcb]
      exact ih log
    | error e =>
      simp only [callback_loop, callback_errors, List.filterMap_cons, hcb]
      rw [ih]
      simp [callback_errors]

lemma length_simple_returns (prices : List ℚ) :
    (calculate_simple_returns prices).length = prices.length - 1 := by
  unfold calculate_simple_returns
  split
  · rename_i h
    simp only [List.length_nil]
    omega
  · rw [List.length_zipWith, List.length_tail]
    omega

lemma pdStd_nonneg {xs : List ℚ} {r : ℝ} (h : pdStd xs = some r) : 0 ≤ r := by
  unfold pdStd at h
  split at h
  · exact absurd h (by simp)
  · rw [Option.some_inj] at h
    rw [← h]
    exact Real.sqrt_nonneg _

lemma pdStd_none_iff (xs : List ℚ) : pdStd xs = none ↔ xs.length ≤ 1 := by
  unfold pdStd
  split <;> simp [*]

lemma pyRound_zero (d : ℕ) : pyRound d (0 : ℚ) = 0 := by
  simp [pyRound, pyRoundInt]

/-- Evaluation of `check_price_alert` on the default manager for a
non-zero previous price. -/
lemma check_price_alert_eval (c p : ℚ) (h : p ≠ 0) :
    (check_price_alert defaultManager c p).2 =
      if 2 < |(c - p) / p * 100| then
        some ⟨if |(c - p) / p * 100| < 5 then AlertLevel.WARNING
                else AlertLevel.CRITICAL,
              (c - p) / p * 100, 2, "price_change"⟩
      else none := by
  by_cases hc : (2 : ℚ) < |(c - p) / p * 100|
  · simp [check_price_alert, defaultManager, AlertManager_init, h, hc]
  · simp [check_price_alert, defaultManager, AlertManager_init, h, hc]

/-! ### Claim theorems -/

/-- C1 counterexample: with the default threshold 2.0,
`check_price_alert(102, 100)` returns `None` — the percent change is
exactly 2.0, which is not *strictly* greater than 2.0 — whereas the
claim expects a WARNING alert with value 2.0.  (IEEE double evaluation
of `((102-100)/100)*100` also yields exactly 2.0.) -/
theorem check_price_alert_102_counterexample :
    (check_price_alert defaultManager 102 100).2 = none := by
  have e : ((102 : ℚ) - 100) / 100 * 100 = 2 := by norm_num
  rw [check_price_alert_eval 102 100 (by norm_num), e,
    abs_of_nonneg (by norm_num : (0 : ℚ) ≤ 2), if_neg (by norm_num : ¬(2 : ℚ) < 2)]

/-- C1 (amended): with the default `price_change_threshold = 2.0`,
`check_price_alert(102, 100)` returns no alert (the change of exactly
2.0 % does not strictly exceed the threshold); `check_price_alert(110, 100)`
returns a CRITICAL alert; `check_price_alert(100.5, 100)` returns no
alert; `check_price_alert(x, 0)` returns no alert for every `x`; and in
general for `previous ≠ 0` an alert is raised exactly when the absolute
percent change strictly exceeds the threshold, at WARNING level when
that change is below 5 and CRITICAL otherwise. -/
theorem check_price_alert_spec (cur prev x : ℚ) :
    (check_price_alert defaultManager 102 100).2 = none ∧
    (check_price_alert defaultManager 110 100).2 =
      some ⟨AlertLevel.CRITICAL, 10, 2, "price_change"⟩ ∧
    (check_price_alert defaultManager 100.5 100).2 = none ∧
    (check_price_alert defaultManager x 0).2 = none ∧
    (prev ≠ 0 →
      (check_price_alert defaultManager cur prev).2 =
        if 2 < |(cur - prev) / prev * 100| then
          some ⟨if |(cur - prev) / prev * 100| < 5 then AlertLevel.WARNING
                  else AlertLevel.CRITICAL,
                (cur - prev) / prev * 100, 2, "price_change"⟩
        else none) := by
  refine ⟨?_, ?_, ?_, ?_, check_price_alert_eval cur prev⟩
  · have e : ((102 : ℚ) - 100) / 100 * 100 = 2 := by norm_num
    rw [check_price_alert_eval 102 100 (by norm_num), e,
      abs_of_nonneg (by norm_num : (0 : ℚ) ≤ 2), if_neg (by norm_num : ¬(2 : ℚ) < 2)]
  · have e : ((110 : ℚ) - 100) / 100 * 100 = 10 := by norm_num
    rw [check_price_alert_eval 110 100 (by norm_num), e,
      abs_of_nonneg (by norm_num : (0 : ℚ) ≤ 10), if_pos (by norm_num : (2 : ℚ) < 10),
      if_neg (by norm_num : ¬(10 : ℚ) < 5)]
  · have e : ((100.5 : ℚ) - 100) / 100 * 100 = 1 / 2 := by norm_num
    rw [check_price_alert_eval 100.5 100 (by norm_num), e,
      abs_of_nonneg (by norm_num : (0 : ℚ) ≤ 1 / 2),
      if_neg (by norm_num : ¬(2 : ℚ) < 1 / 2)]
  · simp [check_price_alert]

/-- C1 witness: the general rule instantiated at `(103, 100)` — a 3 %
move raises a WARNING alert carrying the exact percent change. -/
theorem check_price_alert_spec_witness :
    (check_price_alert defaultManager 103 100).2 =
      some ⟨AlertLevel.WARNING, 3, 2, "price_change"⟩ := by
  have h := (check_price_alert_spec 103 100 0).2.2.2.2 (by norm_num)
  have e : ((103 : ℚ) - 100) / 100 * 100 = 3 := by norm_num
  rw [h, e, abs_of_nonneg (by norm_num : (0 : ℚ) ≤ 3),
    if_pos (by norm_num : (2 : ℚ) < 3), if_pos (by norm_num : (3 : ℚ) < 5)]

/-- C4 (confirmed): starting from an empty `DataStore` with capacity
`max_records`, after adding `max_records + k` ticks (`k > 0`) the
`get_all` view has exactly `max_records` rows and retains exactly the
last `max_records` ticks added, in arrival order; and after any
sequence of store operations the length never exceeds `max_records`. -/
theorem data_store_fifo (α : Type) (m k : ℕ) (ts : List α) (hk : 0 < k)
    (hlen : ts.length = m + k) :
    (get_all (add_ticks (DataStore_init α m) ts) = ts.drop k ∧
      (get_all (add_ticks (DataStore_init α m) ts)).length = m) ∧
    ∀ ops : List (StoreOp α),
      (run_store_ops (DataStore_init α m) ops).data.length ≤ m := by
  have h0 : (DataStore_init α m).data.length ≤ (DataStore_init α m).max_records := by
    simp [DataStore_init]
  obtain ⟨h1, _⟩ := add_ticks_spec ts (DataStore_init α m) h0
  have hm : (DataStore_init α m).max_records = m := rfl
  rw [hm] at h1
  have he : (DataStore_init α m).data ++ ts = ts := by simp [DataStore_init]
  rw [he] at h1
  have hget : get_all (add_ticks (DataStore_init α m) ts) = ts.rtake m := h1
  refine ⟨⟨?_, ?_⟩, ?_⟩
  · rw [hget]
    unfold List.rtake
    rw [hlen]
    congr 1
    omega
  · rw [hget, length_rtake, hlen]
    omega
  · intro ops
    have hops := (run_store_ops_spec ops (DataStore_init α m) h0).1
    simpa [DataStore_init] using hops

/-- C4 witness: a store of capacity 2 fed 3 ticks retains exactly the
last two, in order. -/
theorem data_store_fifo_witness :
    get_all (add_ticks (DataStore_init ℕ 2) [10, 20, 30]) = [20, 30] :=
  ((data_store_fifo ℕ 2 1 [10, 20, 30] (by decide) (by decide)).1).1

/-- C5 (confirmed): across any sequence of check operations on a fresh
manager with capacity `max_alerts`, the alert history never exceeds
`max_alerts` entries, and it consists of exactly the most recently
raised alerts in order (the oldest alert is evicted first once the
capacity is exceeded). -/
theorem alert_history_bounded (m : ℕ) (ops : List CheckOp) :
    (run_checks (AlertManager_init m) ops).alerts.length ≤ m ∧
    (run_checks (AlertManager_init m) ops).alerts =
      (raised_alerts (AlertManager_init m) ops).rtake m := by
  have h0 : (AlertManager_init m).alerts.length ≤ (AlertManager_init m).max_alerts := by
    simp [AlertManager_init]
  obtain ⟨h1, _⟩ := run_checks_spec ops (AlertManager_init m) h0
  have hm : (AlertManager_init m).max_alerts = m := rfl
  rw [hm] at h1
  have he : (AlertManager_init m).alerts ++ raised_alerts (AlertManager_init m) ops =
      raised_alerts (AlertManager_init m) ops := by simp [AlertManager_init]
  rw [he] at h1
  refine ⟨?_, h1⟩
  rw [h1, length_rtake]
  exact min_le_left _ _

/-- C6 (confirmed): `check_volatility_alert(value)` raises CRITICAL when
`value > volatility_critical`, else WARNING when
`value > volatility_threshold`, else nothing; the critical branch is
evaluated first and excludes the warning branch; with the default
thresholds (warning 0.02, critical 0.05) the value 0.06 raises CRITICAL
and not WARNING; and at most one alert is appended per call. -/
theorem check_volatility_alert_spec (st : AlertState) (v : ℚ) :
    (st.volatility_critical < v →
      check_volatility_alert st v =
        (trigger_alert_hist st ⟨AlertLevel.CRITICAL, v, st.volatility_critical, "volatility"⟩,
         some ⟨AlertLevel.CRITICAL, v, st.volatility_critical, "volatility"⟩)) ∧
    (v ≤ st.volatility_critical → st.volatility_threshold < v →
      check_volatility_alert st v =
        (trigger_alert_hist st ⟨AlertLevel.WARNING, v, st.volatility_threshold, "volatility"⟩,
         some ⟨AlertLevel.WARNING, v, st.volatility_threshold, "volatility"⟩)) ∧
    (v ≤ st.volatility_critical → v ≤ st.volatility_threshold →
      check_volatility_alert st v = (st, none)) ∧
    (check_volatility_alert st v).1.alerts.length ≤ st.alerts.length + 1 ∧
    (check_volatility_alert defaultManager 0.06).2 =
      some ⟨AlertLevel.CRITICAL, 0.06, 0.05, "volatility"⟩ := by
  have hc1 : ∀ (st : AlertState) (w : ℚ), st.volatility_critical < w →
      check_volatility_alert st w =
        (trigger_alert_hist st ⟨AlertLevel.CRITICAL, w, st.volatility_critical, "volatility"⟩,
         some ⟨AlertLevel.CRITICAL, w, st.volatility_critical, "volatility"⟩) := by
    intro st w h
    simp [check_volatility_alert, h]
  refine ⟨hc1 st v, ?_, ?_, ?_, ?_⟩
  · intro h1 h2
    simp [check_volatility_alert, not_lt.mpr h1, h2]
  · intro h1 h2
    simp [check_volatility_alert, not_lt.mpr h1, not_lt.mpr h2]
  · unfold check_volatility_alert
    split
    · exact evictAppend_length_le _ _ _
    · split
      · exact evictAppend_length_le _ _ _
      · exact Nat.le_succ _
  · rw [hc1 defaultManager 0.06 (by norm_num [defaultManager, AlertManager_init])]
    simp only [defaultManager, AlertManager_init]
    norm_num

/-- C6 witness: the critical branch instantiated at the default manager
and value 0.06. -/
theorem check_volatility_alert_spec_witness :
    check_volatility_alert defaultManager 0.06 =
      (trigger_alert_hist defaultManager
        ⟨AlertLevel.CRITICAL, 0.06, defaultManager.volatility_critical, "volatility"⟩,
       some ⟨AlertLevel.CRITICAL, 0.06, defaultManager.volatility_critical, "volatility"⟩) :=
  (check_volatility_alert_spec defaultManager 0.06).1
    (by norm_num [defaultManager, AlertManager_init])

/-- C9 (confirmed): when some registered callback raises, the alert is
still recorded in the history, every other callback (including all
later-registered ones) is still invoked — each failing callback
contributes its own printed error line, in registration order — and
`_trigger_alert` returns normally: the failure is reported, not
propagated. -/
theorem trigger_alert_robust (cbs : List (Alert → Except String Unit))
    (st : AlertState) (log : List String) (a : Alert)
    (_hfail : ∃ cb ∈ cbs, ∃ e, cb a = .error e) :
    trigger_alert cbs st log a =
      .ok (trigger_alert_hist st a, log ++ callback_errors a cbs) := by
  unfold trigger_alert
  rw [callback_loop_ok]
  rfl

/-- C9 witness: a failing first callback does not stop the second from
being examined nor the alert from being recorded. -/
theorem trigger_alert_robust_witness :
    trigger_alert [fun _ => .error ("boom"), fun _ => .ok ()]
        defaultManager [] ⟨AlertLevel.INFO, 0, 0, "m"⟩ =
      .ok (trigger_alert_hist defaultManager ⟨AlertLevel.INFO, 0, 0, "m"⟩,
           ["Error in alert callback: boom"]) := by
  rw [trigger_alert_robust _ _ _ _
    ⟨fun _ => .error ("boom"), List.mem_cons_self _ _, "boom", rfl⟩]
  rfl

/-- C10 (confirmed): on a non-empty history, `get_recent_alerts(0)`
returns the entire history (Python `alerts[-0:]` is `alerts[0:]`); for
negative `n` it returns the history with the first `|n|` alerts
dropped; the "most recent `n` alerts" reading holds exactly for
`n ≥ 1`. -/
theorem get_recent_alerts_spec (st : AlertState) (n : ℤ) :
    (st.alerts ≠ [] → get_recent_alerts st 0 = st.alerts) ∧
    (n < 0 → get_recent_alerts st n = st.alerts.drop (-n).toNat) ∧
    (1 ≤ n → get_recent_alerts st n = st.alerts.rtake n.toNat) := by
  refine ⟨?_, ?_, ?_⟩
  · intro h
    simp [get_recent_alerts, pySliceFrom, h]
  · intro h
    by_cases he : st.alerts = []
    · simp [get_recent_alerts, he]
    · have hn : ¬(-n < 0) := by omega
      simp [get_recent_alerts, pySliceFrom, he, hn]
  · intro h
    by_cases he : st.alerts = []
    · simp [get_recent_alerts, he, List.rtake]
    · have hneg : -n < 0 := by omega
      simp only [get_recent_alerts, pySliceFrom, if_neg he, if_pos hneg, List.rtake]
      congr 1
      omega

/-- C10 witness: `get_recent_alerts(0)` on a two-element history returns
both alerts. -/
theorem get_recent_alerts_spec_witness :
    get_recent_alerts ⟨5, 2, 1/50, 1/20,
        [⟨AlertLevel.INFO, 1, 1, "m"⟩, ⟨AlertLevel.INFO, 2, 1, "m"⟩]⟩ 0 =
      [⟨AlertLevel.INFO, 1, 1, "m"⟩, ⟨AlertLevel.INFO, 2, 1, "m"⟩] :=
  (get_recent_alerts_spec _ 0).1 (by decide)

/-- C2 counterexample: `calculate_volatility([100, 110, 100], 4)` hits
the `len(prices) < window` guard and returns 0.0 even though the full
return series `[1/10, -1/11]` has two entries and a strictly positive
standard deviation — there is no fallback to that std, contradicting
the claim. -/
theorem calculate_volatility_no_fallback_counterexample :
    calculate_volatility [100, 110, 100] 4 = some 0 ∧
    pdStd (calculate_simple_returns [100, 110, 100]) ≠ some 0 := by
  constructor
  · simp [calculate_volatility]
  · have hr : calculate_simple_returns [100, 110, 100] = [1/10, -(1/11)] := by
      norm_num [calculate_simple_returns]
    rw [hr]
    have hv : (0 : ℚ) < sampleVar [1/10, -(1/11)] := by
      norm_num [sampleVar, listMean]
    unfold pdStd
    rw [if_neg (by norm_num)]
    intro hcontra
    rw [Option.some_inj] at hcontra
    have h0 : ((sampleVar [1/10, -(1/11)] : ℚ) : ℝ) ≤ 0 :=
      Real.sqrt_eq_zero'.mp hcontra
    have h1 : (0 : ℝ) < ((sampleVar [1/10, -(1/11)] : ℚ) : ℝ) := by exact_mod_cast hv
    linarith

/-- C2 (amended): `calculate_volatility(prices, window)` returns 0.0
immediately whenever fewer than `window` prices are available — with no
fallback; the fallback to the std of the full available return series
occurs exactly when `len(prices) == window` (that series then has
`window - 1` entries); with more prices it returns the std of the last
`window` returns.  For `window ≥ 2` this yields 0.0 whenever fewer than
2 prices exist (and for the degenerate windows ≤ 2 the boundary cases
produce pandas' NaN, modelled as `none`). -/
theorem calculate_volatility_spec (prices : List ℚ) (window : ℕ) :
    calculate_volatility prices window =
      if prices.length < window then some 0
      else if prices.length = window then pdStd (calculate_simple_returns prices)
      else pdStd ((calculate_simple_returns prices).rtake window) := by
  simp only [calculate_volatility]
  by_cases h1 : prices.length < window
  · simp [h1]
  · rw [if_neg h1, if_neg h1]
    have hl := length_simple_returns prices
    by_cases h2 : prices.length = window
    · rw [if_pos h2]
      by_cases h3 : (calculate_simple_returns prices).length < window
      · rw [if_pos h3]
      · rw [if_neg h3]
        have hp0 : prices.length = 0 := by omega
        have hnil : prices = [] := List.length_eq_zero.mp hp0
        subst hnil
        simp [calculate_simple_returns, List.rtake_nil]
    · rw [if_neg h2]
      have h3 : ¬(calculate_simple_returns prices).length < window := by omega
      rw [if_neg h3]

/-- C7 counterexample: at window 1 the series `[100]` reaches
`returns.std()` on an empty return series, which is pandas NaN
(modelled `none`) — not a non-negative value, so non-negativity fails
for this (series, window) input.  (The example `volatility([100]) == 0.0`
concerns the default window 20 and is confirmed below.) -/
theorem calculate_volatility_nan_counterexample :
    calculate_volatility [100] 1 = none := by
  simp [calculate_volatility, calculate_simple_returns, pdStd]

/-- C7 (amended): `calculate_volatility` never returns a negative
number — every numeric result is non-negative; a NaN result is possible
only for windows ≤ 2; and `calculate_volatility([100])` with the
default window 20 is 0.0. -/
theorem calculate_volatility_nonneg (prices : List ℚ) (window : ℕ) :
    (∀ r : ℝ, calculate_volatility prices window = some r → 0 ≤ r) ∧
    (calculate_volatility prices window = none → window ≤ 2) ∧
    calculate_volatility [100] 20 = some 0 := by
  refine ⟨?_, ?_, by simp [calculate_volatility]⟩
  · intro r hr
    simp only [calculate_volatility] at hr
    split at hr
    · have h0 : (0 : ℝ) = r := by simpa using hr
      exact h0 ▸ le_rfl
    · split at hr
      · exact pdStd_nonneg hr
      · exact pdStd_nonneg hr
  · intro hn
    simp only [calculate_volatility] at hn
    have hl := length_simple_returns prices
    split at hn
    · exact absurd hn (by simp)
    · rename_i h1
      split at hn
      · rename_i h3
        rw [pdStd_none_iff] at hn
        omega
      · rename_i h3
        rw [pdStd_none_iff, length_rtake] at hn
        omega

/-- C7 witness: the amended statement instantiated at `[100]` with the
default window: the result is the number 0.0, and it is non-negative. -/
theorem calculate_volatility_nonneg_witness :
    calculate_volatility [100] 20 = some 0 ∧ (0 : ℝ) ≤ 0 :=
  ⟨(calculate_volatility_nonneg [100] 20).2.2,
   (calculate_volatility_nonneg [100] 20).1 0 (calculate_volatility_nonneg [100] 20).2.2⟩

/-- C8 (confirmed): for a non-empty price list and a window ≥ 1 (pandas
rejects `window = 0`), the moving-average output is never longer than
the input, it is empty exactly when the input is shorter than the
window, and each entry is the arithmetic mean of the trailing window of
up to `window` prices ending at that position. -/
theorem moving_average_spec (prices : List ℚ) (window : ℕ)
    (hne : prices ≠ []) (_hw : 1 ≤ window) :
    (calculate_moving_average prices window).length ≤ prices.length ∧
    (calculate_moving_average prices window = [] ↔ prices.length < window) ∧
    ∀ i (hi : i < (calculate_moving_average prices window).length),
      (calculate_moving_average prices window).get ⟨i, hi⟩ =
        listMean ((prices.take (i + 1)).rtake window) := by
  have hlen0 : prices.length ≠ 0 := by simpa [List.length_eq_zero] using hne
  unfold calculate_moving_average
  by_cases h : prices.length < window
  · simp only [if_pos h]
    refine ⟨Nat.zero_le _, by simp [h], ?_⟩
    intro i hi
    simp at hi
  · simp only [if_neg h]
    refine ⟨by simp [rollingMean], ?_, ?_⟩
    · constructor
      · intro hx
        have : (rollingMean window prices).length = prices.length := by simp [rollingMean]
        rw [hx] at this
        simp at this
        exact absurd this.symm hlen0
      · intro hx
        exact absurd hx h
    · intro i hi
      simp only [if_neg h, rollingMean, List.get_eq_getElem, List.getElem_map,
        List.getElem_range]

/-- C8 witness: the length bound instantiated at `[1, 2, 3]` with
window 2. -/
theorem moving_average_spec_witness :
    (calculate_moving_average [1, 2, 3] 2).length ≤ 3 := by
  have h := (moving_average_spec [1, 2, 3] 2 (by simp) (by norm_num)).1
  simpa using h

/-- C3 counterexample: for the single-price series `[100]` (fewer than
2 records, so returns are uncomputable) `calculate_metrics` reports the
placeholder number 0 for both `price_change_pct` and `mean_return`
instead of an absent value, contradicting the claim. -/
theorem calculate_metrics_placeholder_counterexample :
    (calculate_metrics [100] 20 50).map Metrics.price_change_pct = some 0 ∧
    (calculate_metrics [100] 20 50).map Metrics.mean_return = some 0 := by
  have hr : calculate_simple_returns [100] = [] := by
    simp [calculate_simple_returns]
  constructor
  · simp [calculate_metrics, hr, pyRound_zero]
  · simp [calculate_metrics, hr, pyRound_zero]

/-- C3 (amended): `calculate_metrics` returns the empty snapshot for an
empty series, and the moving-average and EMA fields surface as `None`
when there are too few records for their windows; however, the percent
price change and mean return fields fall back to the placeholder number
0 — not `None` — when fewer than 2 prices exist. -/
theorem calculate_metrics_spec (prices : List ℚ) (ws wl : ℕ) :
    (prices = [] → calculate_metrics prices ws wl = none) ∧
    (prices ≠ [] →
      (prices.length < ws →
        (calculate_metrics prices ws wl).map Metrics.ma_short = some none ∧
        (calculate_metrics prices ws wl).map Metrics.ema_short = some none) ∧
      (prices.length < wl →
        (calculate_metrics prices ws wl).map Metrics.ma_long = some none) ∧
      (prices.length < 2 →
        (calculate_metrics prices ws wl).map Metrics.price_change_pct = some 0 ∧
        (calculate_metrics prices ws wl).map Metrics.mean_return = some 0)) := by
  constructor
  · intro h
    subst h
    simp [calculate_metrics]
  · intro hne
    have hlen : ¬prices.length = 0 := by simpa [List.length_eq_zero] using hne
    refine ⟨?_, ?_, ?_⟩
    · intro h
      have hma : calculate_moving_average prices ws = [] := by
        unfold calculate_moving_average
        rw [if_pos h]
      have hema : calculate_ema prices ws = [] := by
        unfold calculate_ema
        rw [if_pos h]
      constructor
      · simp [calculate_metrics, hlen, hma, pyOptRound2]
      · simp [calculate_metrics, hlen, hema, pyOptRound2]
    · intro h
      have hma : calculate_moving_average prices wl = [] := by
        unfold calculate_moving_average
        rw [if_pos h]
      simp [calculate_metrics, hlen, hma, pyOptRound2]
    · intro h
      have hr : calculate_simple_returns prices = [] := by
        unfold calculate_simple_returns
        rw [if_pos h]
      constructor
      · simp [calculate_metrics, hlen, hr, pyRound_zero]
      · simp [calculate_metrics, hlen, hr, pyRound_zero]

/-- C3 witness: the empty series yields the empty snapshot, and a
single price yields `None` moving averages alongside the placeholder
changes. -/
theorem calculate_metrics_spec_witness :
    calculate_metrics [] 20 50 = none :=
  (calculate_metrics_spec [] 20 50).1 rfl

end Quant
